import Mathlib

set_option maxRecDepth 8192

/-!
Verification of the moypolk-explorer search subsystem.

A shallow embedding of the search core of the moypolk-explorer dashboard:
the query builder, paginated search service, highlighter, chunked-corpus
loader and ad-hoc text metrics, translated from
`06_Поиск.py` (sample-search page), `app/pages/07_Поиск_полный.py`
(full-search page), `app/data_loader.py` and `scripts/prepare_data.py`.

Python strings are modelled as Lean `String`s (sequences of code points,
matching Python indexing/length semantics), machine floats as `ℚ`, and
the DuckDB table as a `List Row` with SQL `WHERE`/`ORDER BY`/`LIMIT`/
`OFFSET` given their standard relational reading (filter, stable sort,
drop/take).
-/

namespace Moypolk

/-- Lower-casing as Python `str.lower()` acts on the alphabets appearing in
this code base: ASCII `A`-`Z` and the Russian alphabet `А`-`Я` plus `Ё`. -/
def ruToLower (c : Char) : Char :=
  if ('A' ≤ c ∧ c ≤ 'Z') ∨ ('А' ≤ c ∧ c ≤ 'Я') then
    Char.ofNat (c.toNat + 32)
  else if c = 'Ё' then 'ё'
  else c

/-- Python `str.lower()` on a list of characters. -/
def ruLowerL (l : List Char) : List Char := l.map ruToLower

/-- Python `str.lower()` on a string. -/
def ruLowerStr (s : String) : String := String.mk (ruLowerL s.data)

/-- Python's substring test `pat in s` on character lists: does `pat`
occur contiguously in `l`? -/
def hasMatch (l pat : List Char) : Bool :=
  match l with
  | [] => pat.isEmpty
  | _ :: rest => pat.isPrefixOf l || hasMatch rest pat

/-- Python's substring test `pat in s` on strings. -/
def containsStr (s pat : String) : Bool := hasMatch s.data pat.data

/-- Python `str.strip()`: remove leading and trailing whitespace. -/
def pyStrip (s : String) : String :=
  String.mk
    (((s.data.dropWhile Char.isWhitespace).reverse.dropWhile
      Char.isWhitespace).reverse)

/-- SQL-literal escaping as written in the source:
`s.replace("'", "''")` (doubling embedded single quotes). -/
def escapeSQL (s : String) : String :=
  String.mk (s.data.flatMap (fun c => if c = '\'' then ['\'', '\''] else [c]))

/-- The free-text condition built by both search pages:
`(fio ILIKE '%{safe}%' OR story ILIKE '%{safe}%')` where `safe` is the
escaped, stripped term. -/
def textCond (safe : String) : String :=
  "(fio ILIKE '%" ++ safe ++ "%' OR story ILIKE '%" ++ safe ++ "%')"

/-- The birth-year condition built by both search pages:
`TRY_CAST(REGEXP_EXTRACT(birthday, '(\d{4})', 1) AS INTEGER)
BETWEEN {year_from} AND {year_to}`. -/
def yearCond (yearFrom yearTo : Nat) : String :=
  "TRY_CAST(REGEXP_EXTRACT(birthday, '(\\d\x7b4\x7d)', 1) AS INTEGER) BETWEEN "
    ++ toString yearFrom ++ " AND " ++ toString yearTo

/-- Condition list of the sample-search page (`06_Поиск.py`, lines 74-95):
the free-text term is escaped, but the selected region and rank are
interpolated verbatim. -/
def conditions06 (queryText selectedRegion selectedRank : String)
    (yearFrom yearTo : Nat) : List String :=
  (if  (pyStrip queryText) ≠ "" then [textCond (escapeSQL  (pyStrip queryText))] else [])
  ++ (if selectedRegion ≠ "Все регионы"
      then ["region = '" ++ selectedRegion ++ "'"] else [])
  ++ (if selectedRank ≠ "Все звания"
      then ["rank = '" ++ selectedRank ++ "'"] else [])
  ++ (if yearFrom > 1850 ∨ yearTo < 1940
      then [yearCond yearFrom yearTo] else [])

/-- The `where_clause` of the sample-search page:
`" AND ".join(conditions) if conditions else "TRUE"`. -/
def whereClause06 (queryText selectedRegion selectedRank : String)
    (yearFrom yearTo : Nat) : String :=
  let cs := conditions06 queryText selectedRegion selectedRank yearFrom yearTo
  if cs.isEmpty then "TRUE" else String.intercalate " AND " cs

/-- Condition list of the full-search page (`07_Поиск_полный.py`,
lines 267-285): all three string inputs are escaped. -/
def conditions07 (queryText selectedRegion selectedRank : String)
    (yearFrom yearTo : Nat) : List String :=
  (if  (pyStrip queryText) ≠ "" then [textCond (escapeSQL  (pyStrip queryText))] else [])
  ++ (if selectedRegion ≠ "Все регионы"
      then ["region = '" ++ escapeSQL selectedRegion ++ "'"] else [])
  ++ (if selectedRank ≠ "Все звания"
      then ["rank = '" ++ escapeSQL selectedRank ++ "'"] else [])
  ++ (if yearFrom > 1850 ∨ yearTo < 1940
      then [yearCond yearFrom yearTo] else [])

/-- The `where_clause` of the full-search page:
`" AND ".join(conditions) if conditions else "story IS NOT NULL"`. -/
def whereClause07 (queryText selectedRegion selectedRank : String)
    (yearFrom yearTo : Nat) : String :=
  let cs := conditions07 queryText selectedRegion selectedRank yearFrom yearTo
  if cs.isEmpty then "story IS NOT NULL" else String.intercalate " AND " cs

/-- The sample-page condition list with the year branch removed: the
spec's "predicate built with no year filter at all", used as the
comparison point for the full-span claim. -/
def conditions06NoYear (queryText selectedRegion selectedRank : String) :
    List String :=
  (if  (pyStrip queryText) ≠ "" then [textCond (escapeSQL  (pyStrip queryText))] else [])
  ++ (if selectedRegion ≠ "Все регионы"
      then ["region = '" ++ selectedRegion ++ "'"] else [])
  ++ (if selectedRank ≠ "Все звания"
      then ["rank = '" ++ selectedRank ++ "'"] else [])

/-- The full-page condition list with the year branch removed. -/
def conditions07NoYear (queryText selectedRegion selectedRank : String) :
    List String :=
  (if  (pyStrip queryText) ≠ "" then [textCond (escapeSQL  (pyStrip queryText))] else [])
  ++ (if selectedRegion ≠ "Все регионы"
      then ["region = '" ++ escapeSQL selectedRegion ++ "'"] else [])
  ++ (if selectedRank ≠ "Все звания"
      then ["rank = '" ++ escapeSQL selectedRank ++ "'"] else [])

/-- Sample-page `where_clause` with no year filter. -/
def whereClause06NoYear (q r k : String) : String :=
  let cs := conditions06NoYear q r k
  if cs.isEmpty then "TRUE" else String.intercalate " AND " cs

/-- Full-page `where_clause` with no year filter. -/
def whereClause07NoYear (q r k : String) : String :=
  let cs := conditions07NoYear q r k
  if cs.isEmpty then "story IS NOT NULL" else String.intercalate " AND " cs

/-- One veteran memorial record as selected by the search pages
(`SELECT id, fio, region, rank, birthday, death, story, awards_txt, url`).
Optional columns model SQL NULL. -/
structure Row where
  id : Nat
  fio : String
  region : Option String
  rank : Option String
  birthday : Option String
  death : Option String
  story : Option String
  awards_txt : Option String
  url : Option String
deriving DecidableEq, Repr

/-- SQL `SELECT COUNT(*) FROM t WHERE P`: number of rows matching the
predicate. -/
def totalCount (store : List Row) (P : Row → Bool) : Nat :=
  (store.filter P).length

/-- SQL `SELECT ... WHERE P ORDER BY fio`: the matching rows in the
deterministic result order. -/
def orderedMatches (store : List Row) (P : Row → Bool) : List Row :=
  (store.filter P).mergeSort (fun a b => decide (a.fio ≤ b.fio))

/-- Computation `total_pages = max(1, (total + PAGE_SIZE - 1) // PAGE_SIZE)` as in both
search pages. -/
def totalPages (total pageSize : Nat) : Nat :=
  max 1 ((total + pageSize - 1) / pageSize)

/-- Page size of the sample-search page. -/
def PAGE_SIZE06 : Nat := 20

/-- Page size of the full-search page. -/
def PAGE_SIZE07 : Nat := 12

/-- Sample page (`06_Поиск.py` lines 113-118): the offset is computed
directly from the stored page index, `offset = page * PAGE_SIZE`, with no
clamping step. -/
def offset06 (requestedPage : Nat) : Nat := requestedPage * PAGE_SIZE06

/-- Sample page: `... LIMIT PAGE_SIZE OFFSET offset` on the ordered
matches. -/
def fetchPage06 (store : List Row) (P : Row → Bool) (requestedPage : Nat) :
    List Row :=
  ((orderedMatches store P).drop (offset06 requestedPage)).take PAGE_SIZE06

/-- Full page (`07_Поиск_полный.py` lines 308-311):
`max_pages = min(total_pages, 100)`; `page = min(requested, max_pages - 1)`. -/
def page07 (requestedPage total : Nat) : Nat :=
  min requestedPage (min (totalPages total PAGE_SIZE07) 100 - 1)

/-- Full page: `offset = page * PAGE_SIZE` after the clamp. -/
def offset07 (requestedPage total : Nat) : Nat :=
  page07 requestedPage total * PAGE_SIZE07

/-- Full page: `... LIMIT PAGE_SIZE OFFSET offset` on the ordered
matches. -/
def fetchPage07 (store : List Row) (P : Row → Bool) (requestedPage : Nat) :
    List Row :=
  ((orderedMatches store P).drop
      (offset07 requestedPage (totalCount store P))).take PAGE_SIZE07

/-- Sum of page lengths over all reachable pages of the sample search
(pages `0..min(total_pages,50)-1`, each fetched at its own offset). -/
def reachableSum06 (store : List Row) (P : Row → Bool) : Nat :=
  ((List.range (min (totalPages (totalCount store P) PAGE_SIZE06) 50)).map
    (fun i => (fetchPage06 store P i).length)).sum

/-- Sum of page lengths over all reachable pages of the full search
(pages `0..min(total_pages,100)-1`). -/
def reachableSum07 (store : List Row) (P : Row → Bool) : Nat :=
  ((List.range (min (totalPages (totalCount store P) PAGE_SIZE07) 100)).map
    (fun i => (fetchPage07 store P i).length)).sum

/-- The chunk-file naming pattern `soldiers_fts_part*.parquet` of the
full-corpus directory (`*` matching any, possibly empty, run of
characters). -/
def matchesChunkPattern (name : String) : Bool :=
  "soldiers_fts_part".data.isPrefixOf name.data
    && ".parquet".data.reverse.isPrefixOf name.data.reverse
    && 25 ≤ name.data.length

/-- The loader `get_full_search_connection` (`app/data_loader.py` lines 102-128) over
a directory modelled as a list of (file name, rows) pairs: if any chunk
files match the pattern, the table is the glob read of ALL of them
(files in sorted name order, as `sorted(...glob(...))`); otherwise the
single legacy file `soldiers_fts.parquet` if present; otherwise `none`
(no error — the caller falls back to the sample store). -/
def get_full_search_connection (dir : List (String × List Row)) :
    Option (List Row) :=
  let chunks := (dir.filter (fun f => matchesChunkPattern f.1)).mergeSort
    (fun a b => decide (a.1 ≤ b.1))
  if ¬ chunks.isEmpty then
    some (chunks.flatMap (fun f => f.2))
  else if (dir.find? (fun f => f.1 = "soldiers_fts.parquet")).isSome then
    (dir.find? (fun f => f.1 = "soldiers_fts.parquet")).map (fun f => f.2)
  else
    none

/-- Left-to-right, non-overlapping, case-insensitive wrapping of every
occurrence of the (lower-cased, non-empty) pattern `pat` in `<mark>…</mark>`,
as performed by `re.sub(f"({re.escape(q)})", r"<mark>\1</mark>", snippet,
flags=re.IGNORECASE)`; the matched span keeps its original characters.
The recursion is driven by a fuel counter; every step consumes at least
one character, so fuel `l.length` is always sufficient and the fuel-zero
arm is never reached from `markOccurrences`. -/
def markGo (pat : List Char) : Nat → List Char → List Char
  | _, [] => []
  | 0, l => l
  | fuel + 1, c :: rest =>
    if pat ≠ [] ∧ pat.isPrefixOf (ruLowerL (c :: rest)) = true then
      "<mark>".data ++ (c :: rest).take pat.length ++ "</mark>".data
        ++ markGo pat fuel ((c :: rest).drop pat.length)
    else
      c :: markGo pat fuel rest

/-- The `re.sub` marking pass over a whole snippet. -/
def markOccurrences (pat snippet : List Char) : List Char :=
  markGo pat snippet.length snippet

/-- Python `s.replace("\n", "<br>")` on the character list. -/
def replaceNewlinesL (l : List Char) : List Char :=
  l.flatMap (fun c => if c = '\n' then "<br>".data else [c])

/-- The function `highlight(text, query, max_chars)` from `07_Поиск_полный.py` lines
49-57: truncate to `max_chars` first; append the shown-N-of-M suffix when
the text was longer; if the query is blank only convert newlines,
otherwise mark the case-insensitive occurrences of the stripped query
inside the truncated snippet, then convert newlines. -/
def highlight (text query : String) (maxChars : Nat) : String :=
  let suffix :=
    if text.length > maxChars then
      "<br><small style='color:#757575'>…показано " ++ toString maxChars
        ++ " из " ++ toString text.length ++ " символов</small>"
    else ""
  if query = "" ∨ pyStrip query = "" then
    String.mk (replaceNewlinesL (text.data.take maxChars)) ++ suffix
  else
    String.mk (replaceNewlinesL
        (markOccurrences (ruLowerL (pyStrip query).data)
          (text.data.take maxChars)))
      ++ suffix

/-- Helper for Python `str.split()` (no argument): split on runs of
whitespace, dropping empty pieces; `cur` is the word being accumulated,
in reverse. -/
def splitWordsAux (cur : List Char) : List Char → List String
  | [] => if cur.isEmpty then [] else [String.mk cur.reverse]
  | c :: rest =>
    if c.isWhitespace then
      (if cur.isEmpty then [] else [String.mk cur.reverse])
        ++ splitWordsAux [] rest
    else splitWordsAux (c :: cur) rest

/-- Python `text.lower().split()`: the word list used by `compute_mattr`. -/
def pyWords (text : String) : List String :=
  splitWordsAux [] (ruLowerL text.data)

/-- The per-window type-token ratios `ttrs` of `compute_mattr`:
`len(set(words[i:i+50]))/50` for each window start `i` in
`range(len(words) - 50 + 1)`. -/
def mattrTtrs (words : List String) : List ℚ :=
  (List.range (words.length - 50 + 1)).map
    (fun i => (((words.drop i).take 50).dedup.length : ℚ) / 50)

/-- The common body of both `compute_mattr` implementations (window 50):
short texts use `len(set(words)) / max(len(words), 1)`, longer ones the
mean of the window ratios (`np.mean(ttrs)` = sum over count of
windows). -/
def mattrRaw (words : List String) : ℚ :=
  if words.length < 50 then
    (words.dedup.length : ℚ) / (max words.length 1 : Nat)
  else
    (mattrTtrs words).sum / ((words.length - 50 + 1 : Nat) : ℚ)

/-- Python `round(x, 3)` idealised over the rationals: nearest-integer
rounding of `x*1000` (Python rounds exact half-thousandths to even, a
difference not exercised by the properties below). -/
def round3 (q : ℚ) : ℚ := ((round (q * 1000) : ℤ) : ℚ) / 1000

/-- The function `compute_mattr(text, window=50)` of the full-search page
(`07_Поиск_полный.py` lines 60-65), floats idealised as rationals:
the rounded-to-3-decimals MATTR of the lower-cased word list. -/
def compute_mattr07 (text : String) : ℚ := round3 (mattrRaw (pyWords text))

/-- The function `compute_mattr(text, window=50)` of the batch job
(`scripts/prepare_data.py` lines 73-82): identical except that the result
is not rounded. -/
def compute_mattrBatch (text : String) : ℚ := mattrRaw (pyWords text)

/-- The function `classify_narrative(story)` of the full-search page
(`07_Поиск_полный.py` lines 68-77): the on-demand classifier. -/
def classify_narrative07 (story : String) : String :=
  if story.isEmpty || story.length < 100 then "Формуляр"
  else
    let s := ruLowerStr story
    let firstPerson := ["я помню", "мой дед", "моя бабушка", "мой отец",
      "мой прадед"].any (fun w => containsStr s w)
    if firstPerson && story.length > 500 then "Семейная история"
    else if story.length > 1000 &&
        (["фронт", "бой", "наступление", "дивизия", "полк"].any
          (fun w => containsStr s w)) then "Мемуар"
    else "Смешанный"

/-- The function `classify_narrative(row)` of the batch job (`scripts/prepare_data.py`
lines 50-70), applied to a record whose story text is `story` and whose
`battles` column is `battles` (`None` for NULL): note the extra marker
`"наш"`, the `battles`-column memoir test, and the final
`first_person or length > 300` branch. -/
def classify_narrativeBatch (story : String) (battles : Option String) :
    String :=
  if story.length < 100 then "Формуляр"
  else
    let s := ruLowerStr story
    let firstPerson := ["я помню", "мой дед", "моя бабушка", "наш",
      "мой отец", "мой прадед"].any (fun w => containsStr s w)
    let hasBattles := match battles with
      | some b => decide (b.length > 5)
      | none => false
    if firstPerson && story.length > 500 then "Семейная история"
    else if story.length > 1000 && hasBattles then "Мемуар"
    else if firstPerson || story.length > 300 then "Смешанный"
    else "Формуляр"

/-- The outcome of one search submission as rendered by the pages:
a query error (`st.error` + `st.stop`), the zero-results message
(`st.warning` + `st.stop`), or a page of results. -/
inductive SearchOutcome where
  | queryError : String → SearchOutcome
  | zeroResults : SearchOutcome
  | page : List Row → SearchOutcome
deriving DecidableEq

/-- The control flow of one search submission in both pages
(`06_Поиск.py` lines 99-128, `07_Поиск_полный.py` lines 290-306):
the COUNT query runs first inside `try/except` (an exception aborts the
submission with a query error); a zero count stops with its own
message; otherwise the page SELECT runs inside its own `try/except`.
The session bookmark store is not touched on any of these paths, so it is
returned unchanged. -/
def runSearch (countResult : Except String Nat)
    (fetchResult : Except String (List Row))
    (bookmarks : List (String × String)) :
    SearchOutcome × List (String × String) :=
  match countResult with
  | Except.error e => (SearchOutcome.queryError e, bookmarks)
  | Except.ok 0 => (SearchOutcome.zeroResults, bookmarks)
  | Except.ok (_ + 1) =>
    match fetchResult with
    | Except.error e => (SearchOutcome.queryError e, bookmarks)
    | Except.ok rows => (SearchOutcome.page rows, bookmarks)

/-- A concrete record used to instantiate the pagination scenarios. -/
def exRow : Row :=
  { id := 1, fio := "Иванов Иван Иванович",
    region := some "Тамбовская область", rank := some "рядовой",
    birthday := some "1910", death := some "1943",
    story := some "рядовой Иванов погиб", awards_txt := none,
    url := none }

/-- The region-equality predicate of the pagination scenarios. -/
def regionPred (r : Row) : Bool := r.region == some "Тамбовская область"

end Moypolk

namespace Moypolk

/-! Theorems. -/

/-- Claim C1: The claim that every user-supplied filter input is escaped in
both pages fails in the sample-search page: the free-text term is escaped
there, but the selected region (and rank) are interpolated verbatim, so a
region containing a single quote yields an unescaped literal; the
full-search page does escape it. -/
theorem C1_sample_page_region_not_escaped :
    whereClause06 "" "Кот-д'Ивуар" "Все звания" 1850 1940
        = "region = 'Кот-д'Ивуар'"
      ∧ whereClause07 "" "Кот-д'Ивуар" "Все звания" 1850 1940
        = "region = 'Кот-д''Ивуар'"
      ∧ escapeSQL "Кот-д'Ивуар" = "Кот-д''Ивуар" := by
  refine ⟨?_, ?_, ?_⟩ <;> decide

/-- Claim C7: A birth-year condition is emitted only for a range strictly
narrower than the full span [1850, 1940]: with the full-span filter both
pages build exactly the predicate built with no year filter at all, and
whenever the range is strictly narrower the year condition is one of the
conjuncts. -/
theorem C7_full_span_year_filter_is_noop :
    (∀ q r k, whereClause06 q r k 1850 1940 = whereClause06NoYear q r k)
    ∧ (∀ q r k, whereClause07 q r k 1850 1940 = whereClause07NoYear q r k)
    ∧ (∀ q r k yf yt, (yf > 1850 ∨ yt < 1940) →
        yearCond yf yt ∈ conditions06 q r k yf yt
        ∧ yearCond yf yt ∈ conditions07 q r k yf yt)
    ∧ (∀ q r k yf yt, ¬ (yf > 1850 ∨ yt < 1940) →
        conditions06 q r k yf yt = conditions06NoYear q r k
        ∧ conditions07 q r k yf yt = conditions07NoYear q r k) := by
  refine ⟨?_, ?_, ?_, ?_⟩
  · intro q r k
    simp [whereClause06, whereClause06NoYear, conditions06, conditions06NoYear]
  · intro q r k
    simp [whereClause07, whereClause07NoYear, conditions07, conditions07NoYear]
  · intro q r k yf yt h
    constructor <;> simp [conditions06, conditions07, h]
  · intro q r k yf yt h
    constructor <;> simp [conditions06, conditions07, conditions06NoYear,
      conditions07NoYear, h]

/-- Witness for C7: the narrower range 1900-1940 really emits the year
condition, and the full span builds the year-free clause. -/
theorem C7_witness :
    yearCond 1900 1940 ∈ conditions06 "" "Все регионы" "Все звания" 1900 1940
    ∧ whereClause06 "Иванов" "Все регионы" "Все звания" 1850 1940
      = whereClause06NoYear "Иванов" "Все регионы" "Все звания" :=
  ⟨(C7_full_span_year_filter_is_noop.2.2.1 "" "Все регионы" "Все звания"
      1900 1940 (Or.inl (by omega))).1,
    C7_full_span_year_filter_is_noop.1 "Иванов" "Все регионы" "Все звания"⟩

/-- Summing the lengths of consecutive `take S` windows at offsets
`0, S, 2S, …` over `m` pages yields everything up to `m*S` rows. -/
theorem sum_take_drop_lengths {α : Type} (l : List α) (S m : Nat) :
    ((List.range m).map (fun i => ((l.drop (i * S)).take S).length)).sum
      = min l.length (m * S) := by
  induction m with
  | zero => simp
  | succ n ih =>
    rw [List.sum_range_succ, ih, Nat.succ_mul]
    simp only [List.length_take, List.length_drop]
    generalize l.length = L
    generalize n * S = a
    omega

/-- The length of the ordered result set equals the reported total. -/
theorem length_orderedMatches (store : List Row) (P : Row → Bool) :
    (orderedMatches store P).length = totalCount store P := by
  simp [orderedMatches, totalCount, List.length_mergeSort]

/-- Inside the reachable range the full-page clamp is the identity. -/
theorem page07_eq_of_lt {i total : Nat}
    (hi : i < min (totalPages total PAGE_SIZE07) 100) :
    page07 i total = i := by
  unfold page07
  omega

/-- Claim C2, counterexample: On the sample-search page the requested page
index is *not* clamped: with 47 matching rows (3 pages of 20) a request
for page 999 fetches offset 19980 and returns the empty page, not page 2
(which holds 7 rows). -/
theorem C2_counterexample_sample_page_no_clamp :
    totalPages (totalCount (List.replicate 47 exRow) regionPred) PAGE_SIZE06 = 3
    ∧ fetchPage06 (List.replicate 47 exRow) regionPred 999 = []
    ∧ (fetchPage06 (List.replicate 47 exRow) regionPred 2).length = 7 := by
  have hP : regionPred exRow = true := by decide
  have h47 : totalCount (List.replicate 47 exRow) regionPred = 47 := by
    unfold totalCount
    rw [List.filter_replicate, hP]
    simp
  have hlen : (orderedMatches (List.replicate 47 exRow) regionPred).length
      = 47 := by rw [length_orderedMatches, h47]
  refine ⟨by rw [h47]; decide, ?_, ?_⟩
  · have hnil : (orderedMatches (List.replicate 47 exRow) regionPred).drop
        (offset06 999) = [] :=
      List.drop_eq_nil_of_le (by rw [hlen]; decide)
    unfold fetchPage06
    rw [hnil]
    rfl
  · unfold fetchPage06
    rw [List.length_take, List.length_drop, hlen]
    decide

/-- Claim C2, amended: The full-search page clamps the requested index to
`min(requested, min(total_pages, 100) - 1)` before computing
`offset = page * 12` (so page 999 of a 3-page result is clamped to page 2
there); the sample-search page performs no clamping and uses
`offset = requested * 20` directly. -/
theorem C2_full_page_clamp :
    (∀ requested total,
      page07 requested total < min (totalPages total PAGE_SIZE07) 100)
    ∧ (∀ requested total,
      offset07 requested total = page07 requested total * PAGE_SIZE07)
    ∧ page07 999 36 = 2
    ∧ (∀ requested, offset06 requested = requested * PAGE_SIZE06) := by
  refine ⟨?_, fun _ _ => rfl, by decide, fun _ => rfl⟩
  intro requested total
  simp only [page07, totalPages]
  omega

/-- Claim C6, counterexample: The sum of row counts over all reachable
pages equals the reported total only below the max-page clamp: with 1001
matching rows on the sample page (51 pages, clamped to 50 reachable pages
of 20 rows), iterating every reachable page yields 1000 rows while the
reported total is 1001. -/
theorem C6_counterexample_clamp_loses_rows :
    reachableSum06 (List.replicate 1001 exRow) regionPred = 1000
    ∧ totalCount (List.replicate 1001 exRow) regionPred = 1001 := by
  have hP : regionPred exRow = true := by decide
  have h : totalCount (List.replicate 1001 exRow) regionPred = 1001 := by
    unfold totalCount
    rw [List.filter_replicate, hP]
    simp
  have hlen : (orderedMatches (List.replicate 1001 exRow) regionPred).length
      = 1001 := by rw [length_orderedMatches, h]
  refine ⟨?_, h⟩
  unfold reachableSum06 fetchPage06 offset06
  rw [sum_take_drop_lengths, hlen, h]
  decide

/-- Claim C6, amended: For every store and predicate, the sum of page
lengths over all reachable pages equals `min(total, max_pages*page_size)`
(`min(total, 1000)` on the sample page, `min(total, 1200)` on the full
page); this equals the total exactly when the result set fits under the
max-page clamp, as in Scenario A: 47 matching rows with page size 20 give
reachable pages of sizes [20, 20, 7] summing to the reported total 47. -/
theorem C6_reachable_sum :
    (∀ store P, reachableSum06 store P = min (totalCount store P) 1000)
    ∧ (∀ store P, reachableSum07 store P = min (totalCount store P) 1200)
    ∧ reachableSum06 (List.replicate 47 exRow) regionPred = 47
    ∧ totalCount (List.replicate 47 exRow) regionPred = 47
    ∧ (List.range (min (totalPages (totalCount (List.replicate 47 exRow)
          regionPred) PAGE_SIZE06) 50)).map
        (fun i => (fetchPage06 (List.replicate 47 exRow) regionPred i).length)
      = [20, 20, 7] := by
  have hsum06 : ∀ store P,
      reachableSum06 store P = min (totalCount store P) 1000 := by
    intro store P
    unfold reachableSum06 fetchPage06 offset06
    rw [sum_take_drop_lengths, length_orderedMatches]
    unfold totalPages PAGE_SIZE06
    generalize totalCount store P = L
    omega
  have hP : regionPred exRow = true := by decide
  have h47 : totalCount (List.replicate 47 exRow) regionPred = 47 := by
    unfold totalCount
    rw [List.filter_replicate, hP]
    simp
  have hlen : (orderedMatches (List.replicate 47 exRow) regionPred).length
      = 47 := by rw [length_orderedMatches, h47]
  refine ⟨hsum06, ?_, by rw [hsum06, h47]; decide, h47, ?_⟩
  · intro store P
    have hcong : ∀ i ∈ List.range
        (min (totalPages (totalCount store P) PAGE_SIZE07) 100),
        (fetchPage07 store P i).length
          = (((orderedMatches store P).drop
              (i * PAGE_SIZE07)).take PAGE_SIZE07).length := by
      intro i hi
      unfold fetchPage07 offset07
      rw [page07_eq_of_lt (List.mem_range.mp hi)]
    unfold reachableSum07
    rw [List.map_congr_left hcong, sum_take_drop_lengths,
      length_orderedMatches]
    unfold totalPages PAGE_SIZE07
    generalize totalCount store P = L
    omega
  · rw [h47]
    have hmp : min (totalPages 47 PAGE_SIZE06) 50 = 3 := by decide
    rw [hmp]
    have hr : List.range 3 = [0, 1, 2] := by decide
    rw [hr]
    simp only [List.map_cons, List.map_nil]
    unfold fetchPage06
    rw [List.length_take, List.length_take, List.length_take,
      List.length_drop, List.length_drop, List.length_drop, hlen]
    decide

/-- Claim C4: If any chunk file matches `soldiers_fts_part*.parquet`, the
loader materialises ALL matching files into the logical table (every row
of every matching chunk is present, never only the first match); if no
chunk file and no legacy `soldiers_fts.parquet` exists it returns `none`
rather than raising, so the caller can fall back to the sample store. -/
theorem C4_loader_loads_all_chunks_or_reports_none :
    (∀ dir f, f ∈ dir → matchesChunkPattern f.1 = true →
      ∀ r ∈ f.2, r ∈ (get_full_search_connection dir).getD [])
    ∧ (∀ dir : List (String × List Row),
        (∀ f ∈ dir, matchesChunkPattern f.1 = false) →
        (∀ f ∈ dir, f.1 ≠ "soldiers_fts.parquet") →
        get_full_search_connection dir = none) := by
  constructor
  · intro dir f hf hpat r hr
    have hfc : f ∈ (dir.filter (fun g => matchesChunkPattern g.1)).mergeSort
        (fun a b => decide (a.1 ≤ b.1)) :=
      List.mem_mergeSort.mpr (List.mem_filter.mpr ⟨hf, hpat⟩)
    have hne : ¬ ((dir.filter (fun g => matchesChunkPattern g.1)).mergeSort
        (fun a b => decide (a.1 ≤ b.1))).isEmpty = true := by
      simp only [List.isEmpty_iff]
      exact List.ne_nil_of_mem hfc
    unfold get_full_search_connection
    rw [if_pos hne]
    simp only [Option.getD_some]
    exact List.mem_flatMap.mpr ⟨f, hfc, hr⟩
  · intro dir hnochunk hnolegacy
    have hfilt : dir.filter (fun g => matchesChunkPattern g.1) = [] := by
      rw [List.filter_eq_nil_iff]
      intro f hf
      simp [hnochunk f hf]
    have hfind : dir.find? (fun f => f.1 = "soldiers_fts.parquet") = none := by
      rw [List.find?_eq_none]
      intro f hf
      simp [hnolegacy f hf]
    unfold get_full_search_connection
    rw [hfilt, hfind]
    simp [List.mergeSort_nil]

/-- Witness for C4: a two-chunk directory keeps a row of the second chunk
in the loaded table, and a directory with neither chunks nor the legacy
file yields `none`. -/
theorem C4_witness :
    exRow ∈ (get_full_search_connection
        [("soldiers_fts_part000.parquet", []),
         ("soldiers_fts_part001.parquet", [exRow])]).getD []
    ∧ get_full_search_connection [("readme.txt", ([] : List Row))] = none :=
  ⟨C4_loader_loads_all_chunks_or_reports_none.1 _
      ("soldiers_fts_part001.parquet", [exRow]) (by simp) (by decide)
      exRow (by simp),
    C4_loader_loads_all_chunks_or_reports_none.2 _
      (by intro f hf; fin_cases hf; decide)
      (by intro f hf; fin_cases hf; decide)⟩

/-- When the (lower-cased) pattern has no occurrence in the (lower-cased)
snippet, the marking pass leaves the snippet unchanged. -/
theorem markGo_eq_of_no_match (pat : List Char) :
    ∀ fuel l, hasMatch (ruLowerL l) pat = false → markGo pat fuel l = l := by
  intro fuel
  induction fuel with
  | zero => intro l _; cases l <;> rfl
  | succ n ih =>
    intro l hl
    cases l with
    | nil => rfl
    | cons c rest =>
      have hl' : (pat.isPrefixOf (ruLowerL (c :: rest))
          || hasMatch (ruLowerL rest) pat) = false := hl
      rw [Bool.or_eq_false_iff] at hl'
      unfold markGo
      rw [if_neg (by simp [hl'.1])]
      rw [ih rest hl'.2]

/-- Claim C5: `highlight` truncates before marking: whenever the stripped
term has no case-insensitive occurrence inside the first `max_chars`
characters of the text — in particular whenever every occurrence in the
full text begins at or after position `max_chars` — the output carries no
mark at all and coincides with the blank-term rendering of the same
truncated text. -/
theorem C5_highlight_truncates_before_marking
    (text query : String) (maxChars : Nat)
    (hq : pyStrip query ≠ "")
    (hno : hasMatch (ruLowerL (text.data.take maxChars))
      (ruLowerL (pyStrip query).data) = false) :
    highlight text query maxChars = highlight text "" maxChars := by
  have hcond : ¬ (query = "" ∨ pyStrip query = "") := by
    rintro (h | h)
    · apply hq
      rw [h]
      decide
    · exact hq h
  unfold highlight
  rw [if_neg hcond, if_pos (Or.inl rfl)]
  unfold markOccurrences
  rw [markGo_eq_of_no_match _ _ _ hno]

/-- Witness for C5 — Scenario B of the spec: term `"Иванов"`, text
`"рядовой Иванов погиб"`, `max_chars = 10`: the term survives stripping,
has no occurrence inside the 10-character window, the output equals the
blank-term rendering, and that rendering is the bare truncated text plus
the shown-10-of-20 suffix, with no `<mark>`. -/
theorem C5_witness :
    pyStrip "Иванов" ≠ ""
    ∧ highlight "рядовой Иванов погиб" "Иванов" 10
      = highlight "рядовой Иванов погиб" "" 10
    ∧ highlight "рядовой Иванов погиб" "" 10
      = "рядовой Ив<br><small style='color:#757575'>…показано 10 из 20 символов</small>" :=
  ⟨by decide,
    C5_highlight_truncates_before_marking "рядовой Иванов погиб" "Иванов" 10
      (by decide) (by decide),
    by decide⟩

/-- Claim C3, counterexample: The on-demand classifier and the batch
classifier disagree: a 150-character story with no genre markers (and a
record with no battles column) is labelled Смешанный on demand but
Формуляр by the batch job. -/
theorem C3_counterexample_classifiers_differ :
    classify_narrative07 (String.mk (List.replicate 150 'x'))
      = "Смешанный"
    ∧ classify_narrativeBatch (String.mk (List.replicate 150 'x')) none
      = "Формуляр" := by
  constructor <;> decide

/-- Claim C3, amended: The two classifiers agree only on the short-text
rule: every story under 100 characters is labelled Формуляр by both; for
longer stories the labels can differ (the batch classifier checks the
extra marker "наш", detects memoirs via the battles column instead of
story keywords, and sends marker-free stories of at most 300 characters
to Формуляр where the viewer returns Смешанный). -/
theorem C3_classifiers_agree_below_100 :
    ∀ story battles, story.length < 100 →
      classify_narrative07 story = "Формуляр"
      ∧ classify_narrativeBatch story battles = "Формуляр" := by
  intro story battles h
  constructor
  · unfold classify_narrative07
    rw [if_pos]
    simp [h]
  · unfold classify_narrativeBatch
    rw [if_pos h]

/-- Witness for the amended C3: both classifiers send a short story to
Формуляр. -/
theorem C3_witness :
    classify_narrative07 "Рядовой. Погиб в 1943 году." = "Формуляр"
    ∧ classify_narrativeBatch "Рядовой. Погиб в 1943 году." none
      = "Формуляр" :=
  C3_classifiers_agree_below_100 "Рядовой. Погиб в 1943 году." none
    (by decide)

/-- Claim C10: The on-demand classifier is total with range contained in the
four-label set, and every story shorter than 100 characters (the empty
string included) maps to Формуляр. -/
theorem C10_classifier_total_four_labels :
    (∀ story, classify_narrative07 story
      ∈ (["Формуляр", "Семейная история", "Мемуар", "Смешанный"]
        : List String))
    ∧ (∀ story, story.length < 100 → classify_narrative07 story
      = "Формуляр") := by
  constructor
  · intro story
    unfold classify_narrative07
    split
    · simp
    · dsimp only
      split
      · simp
      · split <;> simp
  · intro story h
    unfold classify_narrative07
    rw [if_pos]
    simp [h]

/-- Witness for C10: the empty story and a 150-character story land in the
label set, and a short story is labelled Формуляр through the theorem. -/
theorem C10_witness :
    classify_narrative07 "" = "Формуляр"
    ∧ classify_narrative07 "госпиталь" = "Формуляр" :=
  ⟨C10_classifier_total_four_labels.2 "" (by decide),
    C10_classifier_total_four_labels.2 "госпиталь" (by decide)⟩

/-- The number of distinct words never exceeds the word count. -/
theorem length_dedup_le (l : List String) : l.dedup.length ≤ l.length :=
  (List.dedup_sublist l).length_le

/-- Every windowed type-token ratio lies in the unit interval. -/
theorem mattrTtrs_mem_unit (words : List String) :
    ∀ x ∈ mattrTtrs words, 0 ≤ x ∧ x ≤ 1 := by
  intro x hx
  unfold mattrTtrs at hx
  obtain ⟨i, _, rfl⟩ := List.mem_map.mp hx
  constructor
  · exact div_nonneg (Nat.cast_nonneg _) (by norm_num)
  · rw [div_le_one (by norm_num)]
    have h1 : ((words.drop i).take 50).dedup.length
        ≤ ((words.drop i).take 50).length := length_dedup_le _
    have h2 : ((words.drop i).take 50).length ≤ 50 := by
      rw [List.length_take]
      exact Nat.min_le_left _ _
    exact_mod_cast le_trans h1 h2

/-- The un-rounded MATTR body always lies in the unit interval. -/
theorem mattrRaw_mem_unit (words : List String) :
    0 ≤ mattrRaw words ∧ mattrRaw words ≤ 1 := by
  unfold mattrRaw
  split
  · have hden : (0 : ℚ) < ((max words.length 1 : Nat) : ℚ) := by
      have h1 : (0 : Nat) < max words.length 1 :=
        lt_of_lt_of_le Nat.zero_lt_one (le_max_right _ _)
      exact_mod_cast h1
    constructor
    · exact div_nonneg (Nat.cast_nonneg _) (Nat.cast_nonneg _)
    · rw [div_le_one hden]
      have h2 : words.dedup.length ≤ max words.length 1 :=
        le_trans (length_dedup_le words) (le_max_left _ _)
      exact_mod_cast h2
  · have hlen : (mattrTtrs words).length = words.length - 50 + 1 := by
      unfold mattrTtrs
      rw [List.length_map, List.length_range]
    have hsumnn : 0 ≤ (mattrTtrs words).sum :=
      List.sum_nonneg (fun x hx => (mattrTtrs_mem_unit words x hx).1)
    have hsumle : (mattrTtrs words).sum
        ≤ ((words.length - 50 + 1 : Nat) : ℚ) := by
      calc (mattrTtrs words).sum ≤ (mattrTtrs words).length • (1 : ℚ) :=
            List.sum_le_card_nsmul _ 1
              (fun x hx => (mattrTtrs_mem_unit words x hx).2)
        _ = ((words.length - 50 + 1 : Nat) : ℚ) := by rw [hlen]; simp
    have hpos : (0 : ℚ) < ((words.length - 50 + 1 : Nat) : ℚ) := by
      exact_mod_cast Nat.succ_pos _
    exact ⟨div_nonneg hsumnn hpos.le, by rw [div_le_one hpos]; exact hsumle⟩

/-- Rounding to three decimals keeps the unit interval. -/
theorem round3_mem_unit {q : ℚ} (h0 : 0 ≤ q) (h1 : q ≤ 1) :
    0 ≤ round3 q ∧ round3 q ≤ 1 := by
  have hl : (0 : ℤ) ≤ round (q * 1000) := by
    rw [round_eq]
    apply Int.floor_nonneg.mpr
    linarith
  have hu : round (q * 1000) ≤ 1000 := by
    rw [round_eq]
    have hlt : ⌊q * 1000 + 1 / 2⌋ < 1001 := by
      rw [Int.floor_lt]
      push_cast
      linarith
    omega
  unfold round3
  constructor
  · exact div_nonneg (by exact_mod_cast hl) (by norm_num)
  · rw [div_le_one (by norm_num)]
    exact_mod_cast hu

/-- Claim C9: `compute_mattr` is total and never divides by zero: both the
viewer's rounded version and the batch version send every text — the
empty string and sub-window texts included — to a rational in [0, 1], and
the empty text yields 0 (the short branch divides by
`max(word_count, 1)`). -/
theorem C9_mattr_total_unit_interval :
    (∀ text, 0 ≤ compute_mattr07 text ∧ compute_mattr07 text ≤ 1)
    ∧ (∀ text, 0 ≤ compute_mattrBatch text ∧ compute_mattrBatch text ≤ 1)
    ∧ compute_mattr07 "" = 0 ∧ compute_mattrBatch "" = 0 := by
  have hnil : mattrRaw (pyWords "") = 0 := by
    have h : pyWords "" = [] := rfl
    rw [h]
    unfold mattrRaw
    norm_num
  refine ⟨?_, ?_, ?_, ?_⟩
  · intro text
    exact round3_mem_unit (mattrRaw_mem_unit _).1 (mattrRaw_mem_unit _).2
  · intro text
    exact mattrRaw_mem_unit _
  · show round3 (mattrRaw (pyWords "")) = 0
    rw [hnil]
    unfold round3
    norm_num
  · exact hnil

/-- Claim C8: A query-execution failure is surfaced as a query error —
distinct from the zero-results outcome and from a result page — the
submission is aborted with the bookmark store untouched, a zero count is
reported as the dedicated zero-results outcome, and a rendered result
page can only arise from a successfully counted, successfully fetched
non-empty result set (an error is never rendered as an empty page). -/
theorem C8_query_error_distinct_state_preserved :
    ∀ (c : Except String Nat) (f : Except String (List Row))
      (bm : List (String × String)),
      (runSearch c f bm).2 = bm
      ∧ (∀ e, c = Except.error e →
          (runSearch c f bm).1 = SearchOutcome.queryError e)
      ∧ (c = Except.ok 0 → (runSearch c f bm).1 = SearchOutcome.zeroResults)
      ∧ (∀ rows, (runSearch c f bm).1 = SearchOutcome.page rows →
          (∃ n, c = Except.ok n ∧ 0 < n) ∧ f = Except.ok rows)
      ∧ (∀ e rows, SearchOutcome.queryError e ≠ SearchOutcome.zeroResults
          ∧ SearchOutcome.queryError e ≠ SearchOutcome.page rows
          ∧ SearchOutcome.zeroResults ≠ SearchOutcome.page rows) := by
  intro c f bm
  refine ⟨?_, ?_, ?_, ?_, ?_⟩
  · rcases c with e | n
    · rfl
    · rcases n with _ | n
      · rfl
      · rcases f with e | rows <;> rfl
  · intro e he
    subst he
    rfl
  · intro h
    subst h
    rfl
  · intro rows hrow
    rcases c with e | n
    · exact absurd hrow (by simp [runSearch])
    · rcases n with _ | n
      · exact absurd hrow (by simp [runSearch])
      · rcases f with e | rows2
        · exact absurd hrow (by simp [runSearch])
        · have heq : rows2 = rows := by
            have h2 := hrow
            simp [runSearch] at h2
            exact h2
          subst heq
          exact ⟨⟨n + 1, rfl, Nat.succ_pos n⟩, rfl⟩
  · intro e rows
    refine ⟨by simp, by simp, by simp⟩

/-- Witness for C8: a failing COUNT query is rendered as that query error
with the bookmark store intact, and a zero count is rendered as the
zero-results outcome. -/
theorem C8_witness :
    (runSearch (Except.error "Binder Error") (Except.ok [])
        [("1", "Иванов")]).1 = SearchOutcome.queryError "Binder Error"
    ∧ (runSearch (Except.error "Binder Error") (Except.ok [])
        [("1", "Иванов")]).2 = [("1", "Иванов")]
    ∧ (runSearch (Except.ok 0) (Except.ok []) []).1
      = SearchOutcome.zeroResults :=
  ⟨(C8_query_error_distinct_state_preserved _ _ _).2.1 "Binder Error" rfl,
    (C8_query_error_distinct_state_preserved _ _ _).1,
    (C8_query_error_distinct_state_preserved _ _ _).2.2.1 rfl⟩

end Moypolk
